/-
Verification of the megaphone/soundboard application (src/App.js) against its
natural-language specification.

The development is a shallow embedding of the state-bearing parts of App.js:

* the microphone toggle (`toggleMic`, App.js lines 82-97) becomes a pure
  transition function on a small record state, returning the ordered list of
  externally visible actions it performs (stream start/stop, flag writes,
  permission request, alert);
* the soundboard list (`addSound` lines 99-126, `playSound` lines 128-136,
  `removeSound` lines 138-144) becomes pure functions over a `List Sound`,
  with the document picker and `Audio.Sound.createAsync` supplied as explicit
  inputs (`Except`-valued, matching the try/catch in the source);
* the `LiveAudioStream.on` data handler (lines 66-73), whose body consists
  only of comments, becomes a function that emits no output frames.

Machine integers do not overflow in any modelled path, so `Nat`/`Int`/`String`
stand in directly for the JavaScript values.
-/
import Mathlib

set_option autoImplicit false

namespace Rooper

/-! ## Microphone session state (App.js lines 24, 82-97, 153-156) -/

/-- Status of the microphone permission, mirroring
`permissionResponse?.status` values used by the code
(only `granted` is ever tested against). -/
inductive PermStatus where
  | granted
  | denied
  | undetermined
  deriving DecidableEq, Repr

/-- Externally visible actions performed by `toggleMic`, in program order. -/
inductive MicAction where
  | requestPerm
  | alertPermissionDenied
  | streamStart
  | streamStop
  | setMic (b : Bool)
  deriving DecidableEq, Repr

/-- The mic-related component state: the `isMicOn` React state variable,
whether `LiveAudioStream` has been started and not since stopped, and the
current permission status. -/
structure MicState where
  isMicOn : Bool
  streamRunning : Bool
  permission : PermStatus
  deriving DecidableEq, Repr

/-- Component state right after mount: `useState(false)` for `isMicOn`, the
live audio stream only initialised (configured), never started. The mount
effect may already have requested permission, so the permission status is an
arbitrary parameter. -/
def initState (p : PermStatus) : MicState :=
  { isMicOn := false, streamRunning := false, permission := p }

/-- Shallow embedding of `toggleMic` (App.js lines 82-97).

`reqResult` is the status the environment returns for `requestPermission()`
when the handler calls it. The result is the new state together with the
ordered list of actions the handler performed:

* mic on: `LiveAudioStream.stop()` then `setIsMicOn(false)`;
* mic off, permission already granted: `LiveAudioStream.start()` then
  `setIsMicOn(true)`;
* mic off, permission not granted: `requestPermission()`; if the response is
  granted the start branch continues, otherwise the handler alerts
  ("Permission Required") and returns without touching the stream or flag. -/
def toggleMic (st : MicState) (reqResult : PermStatus) : MicState × List MicAction :=
  if st.isMicOn then
    ({ st with streamRunning := false, isMicOn := false },
      [MicAction.streamStop, MicAction.setMic false])
  else if st.permission = PermStatus.granted then
    ({ st with streamRunning := true, isMicOn := true },
      [MicAction.streamStart, MicAction.setMic true])
  else if reqResult = PermStatus.granted then
    ({ st with permission := reqResult, streamRunning := true, isMicOn := true },
      [MicAction.requestPerm, MicAction.streamStart, MicAction.setMic true])
  else
    ({ st with permission := reqResult },
      [MicAction.requestPerm, MicAction.alertPermissionDenied])

/-- The status indicator text rendered in the header
(App.js lines 153-156). -/
def statusLabel (st : MicState) : String :=
  if st.isMicOn then "BROADCASTING" else "READY"

/-- States of the mounted component reachable by pressing the mic button,
starting from the freshly mounted state. -/
inductive Reachable : MicState → Prop where
  | init (p : PermStatus) : Reachable (initState p)
  | step (st : MicState) (r : PermStatus) :
      Reachable st → Reachable (toggleMic st r).1

theorem reachable_mic_eq_stream (st : MicState) (h : Reachable st) :
    st.isMicOn = st.streamRunning := by
  induction h with
  | init p => rfl
  | step st r _ ih =>
    unfold toggleMic
    split
    · rfl
    · split
      · rfl
      · split
        · rfl
        · simpa using ih

/-! ## Soundboard data model (App.js lines 25, 99-144) -/

/-- State of one `expo-av` `Audio.Sound` object as used by the code:
whether it is loaded, whether it is currently playing, and its playback
position. `Audio.Sound.createAsync(..., { shouldPlay: false })` yields a
loaded, non-playing object at position 0. -/
structure SoundObj where
  loaded : Bool
  playing : Bool
  position : Nat
  deriving DecidableEq, Repr

/-- One entry of the `sounds` React state array (App.js lines 114-119). -/
structure Sound where
  id : String
  name : String
  uri : String
  soundObj : SoundObj
  deriving DecidableEq, Repr

/-- The name/uri pair read off the picker result
(`result.assets[0]` or the legacy result object itself). -/
structure FileInfo where
  name : String
  uri : String
  deriving DecidableEq, Repr

/-- A resolved `DocumentPicker.getDocumentAsync` result. `type` models the
legacy `result.type` field (absent on the current API, hence `Option`);
`assets` models the `result.assets` array (`none` for a missing/null field,
matching the JavaScript truthiness test `result.assets ? ... : ...`);
`name`/`uri` are the fields read when the legacy shape is used. -/
structure PickerResult where
  type : Option String
  canceled : Bool
  assets : Option (List FileInfo)
  name : String
  uri : String
  deriving DecidableEq, Repr

/-- The file the code extracts from a picker result:
`result.assets ? result.assets[0] : result` (App.js line 107). An empty
`assets` array is truthy in JavaScript, so `assets[0]` is then `undefined`,
modelled by `none` (the subsequent field access throws inside the `try`). -/
def pickedFile (r : PickerResult) : Option FileInfo :=
  match r.assets with
  | some l => l.head?
  | none => some { name := r.name, uri := r.uri }

/-- The sound entry `addSound` appends on success (App.js lines 114-119):
the identifier is `Date.now().toString()`, i.e. the decimal string of the
clock reading `now` at the time of the call. -/
def mkSound (f : FileInfo) (obj : SoundObj) (now : Nat) : Sound :=
  { id := Nat.repr now, name := f.name, uri := f.uri, soundObj := obj }

/-- Shallow embedding of `addSound` (App.js lines 99-126), acting on the
`sounds` list (the only state it writes, via `setSounds`).

`picker` is the outcome of `DocumentPicker.getDocumentAsync` (`Except.error`
when the picker call throws), `createAsync` the outcome of
`Audio.Sound.createAsync` for a given uri (`Except.error` when decoding
fails), and `now` the clock reading. The whole body sits in a `try`/`catch`
whose handler only logs, so every failing path returns the list unchanged. -/
def addSound (sounds : List Sound) (picker : Except String PickerResult)
    (createAsync : String → Except String SoundObj) (now : Nat) : List Sound :=
  match picker with
  | Except.error _ => sounds
  | Except.ok r =>
    if r.type = some "success" ∨ r.canceled = false then
      match pickedFile r with
      | none => sounds
      | some f =>
        match createAsync f.uri with
        | Except.error _ => sounds
        | Except.ok obj => sounds ++ [mkSound f obj now]
    else sounds

/-- `soundObj.stopAsync()`. -/
def stopAsync (s : SoundObj) : SoundObj :=
  { s with playing := false }

/-- `soundObj.setPositionAsync(p)`. -/
def setPositionAsync (s : SoundObj) (p : Nat) : SoundObj :=
  { s with position := p }

/-- `soundObj.playAsync()`. -/
def playAsync (s : SoundObj) : SoundObj :=
  { s with playing := true }

/-- `soundObj.unloadAsync()`: releases the decoded audio; the object is no
longer loaded nor playing. -/
def unloadAsync (s : SoundObj) : SoundObj :=
  { s with loaded := false, playing := false }

/-- Shallow embedding of `playSound` (App.js lines 128-136) on the triggered
item: stop if playing, seek to position 0, play. -/
def playSound (item : Sound) : Sound :=
  { item with soundObj := playAsync (setPositionAsync (stopAsync item.soundObj) 0) }

/-- The effect of `playSound(item)` on the `sounds` list: the triggered
item's (heap-shared) sound object is updated in place, all other entries are
untouched. -/
def playSoundIn (sounds : List Sound) (i : String) : List Sound :=
  sounds.map (fun s => if s.id == i then playSound s else s)

/-- Number of currently playing voices in the list. -/
def activeVoices (sounds : List Sound) : Nat :=
  (sounds.filter (fun s => s.soundObj.playing)).length

/-- Result of a `removeSound` call: the new `sounds` list, the list of
sounds (in their state at the moment of the call) on which `unloadAsync` was
invoked, and the value returned to the caller (`none` models JavaScript
`undefined`, since the function body has no return statement). -/
structure RemoveResult where
  sounds : List Sound
  unloaded : List Sound
  returned : Option Bool
  deriving DecidableEq, Repr

/-- Shallow embedding of `removeSound` (App.js lines 138-144):
`sounds.find(s => s.id === id)`; if found, `unloadAsync()` is awaited on its
sound object immediately; then `setSounds(prev => prev.filter(s => s.id !==
id))`; the function returns no value. -/
def removeSound (sounds : List Sound) (i : String) : RemoveResult :=
  match sounds.find? (fun s => s.id == i) with
  | some s =>
    { sounds := sounds.filter (fun s => s.id != i), unloaded := [s], returned := none }
  | none =>
    { sounds := sounds.filter (fun s => s.id != i), unloaded := [], returned := none }

/-- The whole component state relevant to the claims: the broadcasting flag
and the sounds list. `addSound` writes only `sounds` (its body contains no
other state update). -/
structure AppState where
  isMicOn : Bool
  sounds : List Sound
  deriving DecidableEq, Repr

/-- `addSound` at the level of the full component state. -/
def addSoundApp (st : AppState) (picker : Except String PickerResult)
    (createAsync : String → Except String SoundObj) (now : Nat) : AppState :=
  { st with sounds := addSound st.sounds picker createAsync now }

/-! ## Live audio data handler (App.js lines 66-73) -/

/-- Output frames emitted by the `LiveAudioStream.on` data handler for one
captured PCM frame. The handler's body (App.js lines 66-73) consists only of
comments — it performs no playback and no state change — so no frame is ever
emitted. -/
def onDataEmits (_frame : List Int) : List (List Int) := []

/-- The output stream produced by running the data handler over a whole
capture stream, in order. -/
def outputStream (capture : List (List Int)) : List (List Int) :=
  capture.foldr (fun f acc => onDataEmits f ++ acc) []

/-- A capture stream scaled sample-wise by an (integral) mic gain. -/
def micGainScale (g : Int) (capture : List (List Int)) : List (List Int) :=
  capture.map (fun f => f.map (fun x => g * x))

/-! ## Sequences of soundboard operations -/

/-- A picker result for a successfully picked file, in the legacy
`type: 'success'` shape. -/
def successRes (f : FileInfo) : PickerResult :=
  { type := some "success", canceled := false, assets := none,
    name := f.name, uri := f.uri }

/-- One user-level soundboard operation: a successful add (picked file,
decoded sound object, clock reading) or a remove by identifier. -/
inductive SoundOp where
  | add (f : FileInfo) (obj : SoundObj) (now : Nat)
  | remove (i : String)
  deriving DecidableEq, Repr

/-- Applying one operation to the sounds list, through the embedded source
functions. -/
def applyOp (sounds : List Sound) : SoundOp → List Sound
  | SoundOp.add f obj now =>
    addSound sounds (Except.ok (successRes f)) (fun _ => Except.ok obj) now
  | SoundOp.remove i => (removeSound sounds i).sounds

/-- Running a sequence of operations, oldest first. -/
def runOps (sounds : List Sound) : List SoundOp → List Sound
  | [] => sounds
  | op :: rest => runOps (applyOp sounds op) rest

/-- The sounds a sequence of operations adds, in the order they are added. -/
def soundsAdded : List SoundOp → List Sound
  | [] => []
  | SoundOp.add f obj now :: rest => mkSound f obj now :: soundsAdded rest
  | SoundOp.remove _ :: rest => soundsAdded rest

/-- The `(id, name)` pairs of the rendered soundboard cards
(App.js lines 196-213: `sounds.map(...)`, one card per entry, in list
order). -/
def renderedCards (sounds : List Sound) : List (String × String) :=
  sounds.map (fun s => (s.id, s.name))

theorem applyOp_add (sounds : List Sound) (f : FileInfo) (obj : SoundObj) (now : Nat) :
    applyOp sounds (SoundOp.add f obj now) = sounds ++ [mkSound f obj now] := by
  simp [applyOp, addSound, successRes, pickedFile]

theorem removeSound_sounds (sounds : List Sound) (i : String) :
    (removeSound sounds i).sounds = sounds.filter (fun s => s.id != i) := by
  unfold removeSound
  cases h : sounds.find? (fun s => s.id == i) <;> rfl

/-! ## Injectivity of the decimal rendering used for identifiers

`addSound` builds identifiers as `Date.now().toString()`, embedded as
`Nat.repr now`. The lemmas below establish that `Nat.repr` is injective, so
identifiers built from distinct clock readings are distinct. -/

/-- The characters `Nat.repr` produces, expressed through `Nat.digits`. -/
def reprDigits (n : Nat) : List Char :=
  if n = 0 then [Nat.digitChar 0]
  else ((Nat.digits 10 n).map Nat.digitChar).reverse

theorem digitChar_inj :
    ∀ a, a < 10 → ∀ b, b < 10 → Nat.digitChar a = Nat.digitChar b → a = b := by
  decide

theorem toDigitsCore_eq_reprDigits :
    ∀ (fuel n : Nat) (ds : List Char), n < fuel →
      Nat.toDigitsCore 10 fuel n ds = reprDigits n ++ ds := by
  intro fuel
  induction fuel with
  | zero => intro n ds h; exact absurd h (Nat.not_lt_zero n)
  | succ fuel ih =>
    intro n ds h
    show (if n / 10 = 0 then Nat.digitChar (n % 10) :: ds
        else Nat.toDigitsCore 10 fuel (n / 10) (Nat.digitChar (n % 10) :: ds)) =
      reprDigits n ++ ds
    by_cases h0 : n / 10 = 0
    · rw [if_pos h0]
      by_cases hn : n = 0
      · subst hn; rfl
      · have hlt : n % 10 = n := Nat.mod_eq_of_lt (by omega)
        rw [reprDigits, if_neg hn,
          Nat.digits_def' (b := 10) (by norm_num) (Nat.pos_of_ne_zero hn), h0,
          Nat.digits_zero]
        simp [hlt]
    · rw [if_neg h0]
      have h10 : 10 ≤ n := by omega
      have hfuel : n / 10 < fuel := by omega
      rw [ih (n / 10) (Nat.digitChar (n % 10) :: ds) hfuel]
      have hrepr : reprDigits n = reprDigits (n / 10) ++ [Nat.digitChar (n % 10)] := by
        rw [reprDigits, if_neg (by omega : ¬ n = 0),
          Nat.digits_def' (b := 10) (by norm_num) (by omega : 0 < n),
          reprDigits, if_neg h0]
        simp
      rw [hrepr]
      simp

theorem repr_eq_reprDigits (n : Nat) : Nat.repr n = (reprDigits n).asString := by
  show (Nat.toDigitsCore 10 (n + 1) n []).asString = (reprDigits n).asString
  rw [toDigitsCore_eq_reprDigits (n + 1) n [] (Nat.lt_succ_self n), List.append_nil]

theorem asString_inj (l1 l2 : List Char) (h : l1.asString = l2.asString) : l1 = l2 := by
  simpa [List.asString] using congrArg String.data h

theorem map_digitChar_inj :
    ∀ l1 l2 : List Nat, (∀ d ∈ l1, d < 10) → (∀ d ∈ l2, d < 10) →
      l1.map Nat.digitChar = l2.map Nat.digitChar → l1 = l2 := by
  intro l1
  induction l1 with
  | nil =>
    intro l2 _ _ h
    cases l2 with
    | nil => rfl
    | cons b t2 => simp at h
  | cons a t ih =>
    intro l2 h1 h2 h
    cases l2 with
    | nil => simp at h
    | cons b t2 =>
      simp only [List.map_cons, List.cons.injEq] at h
      have hab : a = b :=
        digitChar_inj a (h1 a (by simp)) b (h2 b (by simp)) h.1
      have ht : t = t2 :=
        ih t2 (fun d hd => h1 d (by simp [hd])) (fun d hd => h2 d (by simp [hd])) h.2
      rw [hab, ht]

theorem reprDigits_inj (m n : Nat) (h : reprDigits m = reprDigits n) : m = n := by
  by_cases hm : m = 0 <;> by_cases hn : n = 0
  · omega
  · exfalso
    rw [reprDigits, if_pos hm, reprDigits, if_neg hn] at h
    have hmap : (Nat.digits 10 n).map Nat.digitChar = [Nat.digitChar 0] := by
      have := congrArg List.reverse h
      simpa using this.symm
    have hdig : Nat.digits 10 n = [0] :=
      map_digitChar_inj _ [0]
        (fun d hd => Nat.digits_lt_base (by norm_num) hd)
        (fun d hd => by simp at hd; omega) hmap
    have := Nat.ofDigits_digits 10 n
    rw [hdig] at this
    simp [Nat.ofDigits] at this
    omega
  · exfalso
    rw [reprDigits, if_neg hm, reprDigits, if_pos hn] at h
    have hmap : (Nat.digits 10 m).map Nat.digitChar = [Nat.digitChar 0] := by
      have := congrArg List.reverse h
      simpa using this
    have hdig : Nat.digits 10 m = [0] :=
      map_digitChar_inj _ [0]
        (fun d hd => Nat.digits_lt_base (by norm_num) hd)
        (fun d hd => by simp at hd; omega) hmap
    have := Nat.ofDigits_digits 10 m
    rw [hdig] at this
    simp [Nat.ofDigits] at this
    omega
  · rw [reprDigits, if_neg hm, reprDigits, if_neg hn] at h
    have hmap := List.reverse_injective h
    have hdig :=
      map_digitChar_inj _ _
        (fun d hd => Nat.digits_lt_base (by norm_num) hd)
        (fun d hd => Nat.digits_lt_base (by norm_num) hd) hmap
    exact Nat.digits_inj_iff.mp hdig

theorem natRepr_injective (m n : Nat) (h : Nat.repr m = Nat.repr n) : m = n := by
  apply reprDigits_inj
  apply asString_inj
  rw [← repr_eq_reprDigits, ← repr_eq_reprDigits]
  exact h

/-! ## Concrete inputs used by counterexamples and witnesses -/

/-- A sound entry whose voice is currently playing at offset 5. -/
def retrig0 : Sound :=
  { id := "a", name := "clip", uri := "u",
    soundObj := { loaded := true, playing := true, position := 5 } }

/-- A sound entry whose voice is currently playing at offset 2. -/
def removePlaying0 : Sound :=
  { id := "a", name := "clip", uri := "u",
    soundObj := { loaded := true, playing := true, position := 2 } }

/-- A successful picker result for a fixed file. -/
def okPick0 : PickerResult := successRes { name := "clip", uri := "u" }

/-- A successfully created (loaded, not playing) sound object. -/
def okObj0 : SoundObj := { loaded := true, playing := false, position := 0 }

/-! ## Claim C1 -/

/-- C1, counterexample. The claim states that with no soundboard triggers the
output stream equals the gain-scaled capture stream sample-for-sample. On a
capture stream of one frame `[7]` the data handler (App.js lines 66-73, whose
body is only comments) emits nothing, so the output stream is `[]` while the
gain-scaled capture (mic gain 1) is `[[7]]`: the two differ. -/
theorem c1_counterexample :
    outputStream [[7]] = [] ∧ micGainScale 1 [[7]] = [[7]] ∧
      outputStream [[7]] ≠ micGainScale 1 [[7]] := by
  decide

/-- C1, amended. For every capture stream, the data handler reproduces
nothing: the output stream it emits is empty (captured frames are discarded),
even though scaling the capture by the default mic gain 1 leaves it
unchanged. -/
theorem c1_data_handler_silent (capture : List (List Int)) :
    outputStream capture = [] ∧ micGainScale 1 capture = capture := by
  constructor
  · induction capture with
    | nil => rfl
    | cons f rest ih => simp [outputStream, onDataEmits]
  · simp [micGainScale]

/-! ## Claim C2 -/

/-- C2, counterexample. The claim states that re-triggering a playing asset
starts a second, independent voice and does not restart or stop the first. On
a list with the single entry `retrig0` (playing at offset 5), `playSound`
leaves exactly one active voice (not two) and that voice's position has been
reset to 0: the first voice was restarted and no second voice exists. -/
theorem c2_counterexample :
    activeVoices [retrig0] = 1 ∧
      activeVoices (playSoundIn [retrig0] "a") = 1 ∧
      (playSoundIn [retrig0] "a").map (fun s => s.soundObj.position) = [0] := by
  decide

/-- C2, amended. Triggering an asset stops any current playback of its single
sound object, resets its position to 0 and restarts it: the same one voice is
reused (the list length, hence the number of voices, never grows). -/
theorem c2_retrigger_single_voice (item : Sound) (sounds : List Sound) (i : String) :
    playSound item =
      { item with soundObj :=
          { loaded := item.soundObj.loaded, playing := true, position := 0 } } ∧
    (playSoundIn sounds i).length = sounds.length := by
  constructor
  · rfl
  · simp [playSoundIn]

/-! ## Claim C3 -/

/-- C3, counterexample. The claim states that removing an asset referenced by
a still-active voice defers the memory release until the voice deactivates.
Removing `removePlaying0`, whose voice is playing, invokes `unloadAsync` on
it within the very same call — while the voice is still active — and drops it
from the list. -/
theorem c3_counterexample :
    removePlaying0.soundObj.playing = true ∧
      (removeSound [removePlaying0] "a").unloaded = [removePlaying0] ∧
      (removeSound [removePlaying0] "a").sounds = [] := by
  decide

/-- C3, amended. Removing an asset that is present in the list unloads its
sound object immediately in the same call — regardless of whether a playback
voice is still active on it — removes it from the list, and returns no
value. -/
theorem c3_remove_unloads_immediately (sounds : List Sound) (i : String) (s : Sound)
    (hfind : sounds.find? (fun x => x.id == i) = some s) :
    (removeSound sounds i).unloaded = [s] ∧
    (removeSound sounds i).sounds = sounds.filter (fun x => x.id != i) ∧
    (removeSound sounds i).returned = none := by
  unfold removeSound
  rw [hfind]
  exact ⟨rfl, rfl, rfl⟩

/-- C3, witness: the amended theorem applied to the one-entry list holding
`removePlaying0`, whose voice is active. -/
theorem c3_remove_unloads_immediately_witness :
    (removeSound [removePlaying0] "a").unloaded = [removePlaying0] ∧
    (removeSound [removePlaying0] "a").sounds =
      [removePlaying0].filter (fun x => x.id != "a") ∧
    (removeSound [removePlaying0] "a").returned = none :=
  c3_remove_unloads_immediately [removePlaying0] "a" removePlaying0 (by decide)

/-! ## Claim C6 -/

/-- C6, counterexample. The claim states that `removeSound` returns the
boolean `false` when the identifier is unknown. Called on the empty list with
the unknown identifier "missing", the function returns no value at all
(JavaScript `undefined`, modelled `none`) — not `false`. -/
theorem c6_counterexample :
    (removeSound [] "missing").returned = none ∧
      (removeSound [] "missing").returned ≠ some false := by
  decide

/-- C6, amended. For an identifier not present in the list, `removeSound`
unloads nothing, leaves the sounds list unchanged, and returns no value
(`undefined`, not the boolean `false`). -/
theorem c6_remove_unknown_id (sounds : List Sound) (i : String)
    (h : ∀ s ∈ sounds, s.id ≠ i) :
    removeSound sounds i = { sounds := sounds, unloaded := [], returned := none } := by
  have hfind : sounds.find? (fun s => s.id == i) = none := by
    rw [List.find?_eq_none]
    intro s hs
    simpa using h s hs
  have hfil : sounds.filter (fun s => s.id != i) = sounds := by
    rw [List.filter_eq_self]
    intro s hs
    simpa using h s hs
  unfold removeSound
  rw [hfind, hfil]

/-- C6, witness: removing the unknown identifier "zzz" from a one-entry list
is a no-op that returns no value. -/
theorem c6_remove_unknown_id_witness :
    removeSound [removePlaying0] "zzz" =
      { sounds := [removePlaying0], unloaded := [], returned := none } :=
  c6_remove_unknown_id [removePlaying0] "zzz" (by decide)

/-! ## Claim C4 -/

/-- C4. Starting the broadcast while the microphone permission is not granted
and the permission request is denied leaves the session idle: the broadcasting
flag stays false, the stream state is untouched, and the only actions
performed are the permission request followed by the permission-denied alert —
in particular the stream is never started. -/
theorem c4_permission_denied_stays_idle (st : MicState) (r : PermStatus)
    (hoff : st.isMicOn = false) (hperm : st.permission ≠ PermStatus.granted)
    (hdeny : r ≠ PermStatus.granted) :
    (toggleMic st r).1.isMicOn = false ∧
    (toggleMic st r).1.streamRunning = st.streamRunning ∧
    (toggleMic st r).2 = [MicAction.requestPerm, MicAction.alertPermissionDenied] ∧
    MicAction.streamStart ∉ (toggleMic st r).2 := by
  simp [toggleMic, hoff, hperm, hdeny]

/-- C4, witness: the freshly mounted state with undetermined permission, the
request answered with a denial. -/
theorem c4_permission_denied_stays_idle_witness :
    (toggleMic (initState PermStatus.undetermined) PermStatus.denied).1.isMicOn = false ∧
    (toggleMic (initState PermStatus.undetermined) PermStatus.denied).1.streamRunning =
      (initState PermStatus.undetermined).streamRunning ∧
    (toggleMic (initState PermStatus.undetermined) PermStatus.denied).2 =
      [MicAction.requestPerm, MicAction.alertPermissionDenied] ∧
    MicAction.streamStart ∉ (toggleMic (initState PermStatus.undetermined) PermStatus.denied).2 :=
  c4_permission_denied_stays_idle (initState PermStatus.undetermined) PermStatus.denied
    rfl (by decide) (by decide)

/-! ## Claim C9 -/

/-- C9. At every state reachable by pressing the mic button from the mounted
component, `isMicOn` equals the stream-running state, and the header shows
"BROADCASTING" exactly when the stream is running; moreover toggling while on
stops the stream before clearing the flag, and any toggle that turns the mic
on starts the stream before setting the flag. -/
theorem c9_status_matches_stream :
    (∀ st : MicState, Reachable st →
        st.isMicOn = st.streamRunning ∧
        (statusLabel st = "BROADCASTING" ↔ st.streamRunning = true)) ∧
    (∀ (st : MicState) (r : PermStatus), st.isMicOn = true →
        (toggleMic st r).2 = [MicAction.streamStop, MicAction.setMic false]) ∧
    (∀ (st : MicState) (r : PermStatus), st.isMicOn = false →
        (toggleMic st r).1.isMicOn = true →
        (toggleMic st r).2 = [MicAction.streamStart, MicAction.setMic true] ∨
        (toggleMic st r).2 =
          [MicAction.requestPerm, MicAction.streamStart, MicAction.setMic true]) := by
  refine ⟨?_, ?_, ?_⟩
  · intro st h
    have heq := reachable_mic_eq_stream st h
    refine ⟨heq, ?_⟩
    rw [← heq]
    cases hm : st.isMicOn <;> simp [statusLabel, hm]
  · intro st r h
    simp [toggleMic, h]
  · intro st r hoff hon
    by_cases hp : st.permission = PermStatus.granted
    · left
      simp [toggleMic, hoff, hp]
    · by_cases hr : r = PermStatus.granted
      · right
        simp [toggleMic, hoff, hp, hr]
      · exfalso
        simp [toggleMic, hoff, hp, hr] at hon

/-- C9, witness: the invariant at the concrete reachable state obtained by
one successful toggle from the mounted state with granted permission. -/
theorem c9_status_matches_stream_witness :
    (toggleMic (initState PermStatus.granted) PermStatus.granted).1.isMicOn =
      (toggleMic (initState PermStatus.granted) PermStatus.granted).1.streamRunning ∧
    (statusLabel (toggleMic (initState PermStatus.granted) PermStatus.granted).1 =
        "BROADCASTING" ↔
      (toggleMic (initState PermStatus.granted) PermStatus.granted).1.streamRunning = true) :=
  c9_status_matches_stream.1 _
    (Reachable.step (initState PermStatus.granted) PermStatus.granted
      (Reachable.init PermStatus.granted))

/-! ## Claim C5 -/

/-- C5. Every failing `addSound` call — the picker throwing, the picker
result carrying no usable file, or `createAsync` failing on the picked
file — leaves the whole component state (the sounds list, its order, and the
broadcasting flag) exactly as it was. -/
theorem c5_addSound_error_atomic (st : AppState)
    (createAsync : String → Except String SoundObj) (now : Nat) (msg : String)
    (r : PickerResult)
    (hfail : ∀ f, pickedFile r = some f → createAsync f.uri = Except.error msg) :
    addSoundApp st (Except.error msg) createAsync now = st ∧
    addSoundApp st (Except.ok r) createAsync now = st := by
  constructor
  · rfl
  · unfold addSoundApp addSound
    by_cases hg : r.type = some "success" ∨ r.canceled = false
    · cases hp : pickedFile r with
      | none => simp [hg, hp]
      | some f => simp [hg, hp, hfail f hp]
    · simp [hg]

/-- C5, witness: a picker error and a decode failure on a successfully picked
file, both from the empty soundboard with the mic off. -/
theorem c5_addSound_error_atomic_witness :
    addSoundApp { isMicOn := false, sounds := [] } (Except.error "err")
        (fun _ => Except.error "err") 42 = { isMicOn := false, sounds := [] } ∧
    addSoundApp { isMicOn := false, sounds := [] } (Except.ok okPick0)
        (fun _ => Except.error "err") 42 = { isMicOn := false, sounds := [] } :=
  c5_addSound_error_atomic { isMicOn := false, sounds := [] }
    (fun _ => Except.error "err") 42 "err" okPick0 (fun _ _ => rfl)

/-! ## Claim C10 -/

/-- C10. A picker result with `canceled = true` and `type` not equal to
"success" fails the guard in `addSound`: no sound is created and the
component state is left unchanged. -/
theorem c10_cancel_noop (st : AppState)
    (createAsync : String → Except String SoundObj) (now : Nat) (r : PickerResult)
    (hc : r.canceled = true) (ht : r.type ≠ some "success") :
    addSoundApp st (Except.ok r) createAsync now = st := by
  unfold addSoundApp addSound
  have hg : ¬ (r.type = some "success" ∨ r.canceled = false) := by
    simp [ht, hc]
  simp [hg]

/-- A cancelled picker result (current API shape: no `type` field). -/
def cancelRes0 : PickerResult :=
  { type := none, canceled := true, assets := some [{ name := "clip", uri := "u" }],
    name := "clip", uri := "u" }

/-- C10, witness: cancelling the picker over a non-empty state with the mic
on changes nothing. -/
theorem c10_cancel_noop_witness :
    addSoundApp { isMicOn := true, sounds := [retrig0] } (Except.ok cancelRes0)
        (fun _ => Except.ok okObj0) 7 = { isMicOn := true, sounds := [retrig0] } :=
  c10_cancel_noop { isMicOn := true, sounds := [retrig0] }
    (fun _ => Except.ok okObj0) 7 cancelRes0 rfl (by decide)

/-! ## Claim C7 -/

theorem runOps_sublist :
    ∀ (ops : List SoundOp) (sounds acc : List Sound), sounds.Sublist acc →
      (runOps sounds ops).Sublist (acc ++ soundsAdded ops) := by
  intro ops
  induction ops with
  | nil =>
    intro sounds acc h
    simpa [runOps, soundsAdded] using h
  | cons op rest ih =>
    intro sounds acc h
    cases op with
    | add f obj now =>
      show (runOps (applyOp sounds (SoundOp.add f obj now)) rest).Sublist _
      rw [applyOp_add]
      have h2 : (sounds ++ [mkSound f obj now]).Sublist (acc ++ [mkSound f obj now]) :=
        h.append (List.Sublist.refl _)
      have h3 := ih (sounds ++ [mkSound f obj now]) (acc ++ [mkSound f obj now]) h2
      simpa [soundsAdded, List.append_assoc] using h3
    | remove i =>
      have hsub : ((removeSound sounds i).sounds).Sublist acc := by
        rw [removeSound_sounds]
        exact (List.filter_sublist _).trans h
      have h3 := ih _ acc hsub
      simpa [runOps, applyOp, soundsAdded] using h3

/-- C7. After any sequence of add and remove operations starting from the
empty soundboard, the resulting sounds list — and hence the rendered sequence
of cards — is a subsequence of the added sounds in the order they were added:
remaining assets always appear in insertion order. -/
theorem c7_insertion_order (ops : List SoundOp) :
    ((runOps [] ops).Sublist (soundsAdded ops)) ∧
    ((renderedCards (runOps [] ops)).Sublist (renderedCards (soundsAdded ops))) := by
  have h := runOps_sublist ops [] [] (List.Sublist.refl [])
  rw [List.nil_append] at h
  exact ⟨h, h.map _⟩

/-! ## Claim C8 -/

/-- C8, counterexample. The claim states that any two assets present together
have distinct identifiers. Two successful adds performed at the same clock
reading (`Date.now()` returning 42 twice, i.e. twice within the same
millisecond) produce two entries both carrying the identifier "42": the
identifiers collide. -/
theorem c8_counterexample :
    (addSound (addSound [] (Except.ok okPick0) (fun _ => Except.ok okObj0) 42)
        (Except.ok okPick0) (fun _ => Except.ok okObj0) 42).map Sound.id =
      ["42", "42"] ∧
    ¬ ((addSound (addSound [] (Except.ok okPick0) (fun _ => Except.ok okObj0) 42)
        (Except.ok okPick0) (fun _ => Except.ok okObj0) 42).map Sound.id).Nodup := by
  decide

theorem runOps_adds :
    ∀ (adds : List (FileInfo × SoundObj × Nat)) (sounds : List Sound),
      runOps sounds (adds.map (fun a => SoundOp.add a.1 a.2.1 a.2.2)) =
        sounds ++ adds.map (fun a => mkSound a.1 a.2.1 a.2.2) := by
  intro adds
  induction adds with
  | nil =>
    intro sounds
    simp [runOps]
  | cons a rest ih =>
    intro sounds
    simp only [List.map_cons]
    show runOps (applyOp sounds (SoundOp.add a.1 a.2.1 a.2.2)) _ = _
    rw [applyOp_add, ih]
    simp

/-- C8, amended. Identifiers are the decimal string of the clock reading at
the add (`Date.now().toString()`), so they are fresh only as far as the clock
is: successful adds performed at pairwise-distinct clock readings yield
pairwise-distinct identifiers (adds within one millisecond collide, as the
counterexample shows). -/
theorem c8_distinct_times_distinct_ids (adds : List (FileInfo × SoundObj × Nat))
    (h : (adds.map (fun a => a.2.2)).Nodup) :
    ((runOps [] (adds.map (fun a => SoundOp.add a.1 a.2.1 a.2.2))).map Sound.id).Nodup := by
  rw [runOps_adds, List.nil_append, List.map_map]
  have h2 : ((adds.map (fun a => a.2.2)).map Nat.repr).Nodup :=
    h.map (fun x y hxy => natRepr_injective x y hxy)
  rw [List.map_map] at h2
  exact h2

/-- C8, witness: two adds at the distinct clock readings 1 and 2 yield
distinct identifiers. -/
theorem c8_distinct_times_distinct_ids_witness :
    ((runOps []
        (([({ name := "a", uri := "u" }, okObj0, 1),
            ({ name := "b", uri := "v" }, okObj0, 2)] :
          List (FileInfo × SoundObj × Nat)).map
            (fun a => SoundOp.add a.1 a.2.1 a.2.2))).map Sound.id).Nodup :=
  c8_distinct_times_distinct_ids
    [({ name := "a", uri := "u" }, okObj0, 1), ({ name := "b", uri := "v" }, okObj0, 2)]
    (by decide)

end Rooper
